import Mathlib

/-!
Shallow embedding of the scan-progress synchronization layer of the
DPDP-Compliance-Toolkit frontend: the scan lifecycle classification and
list-row policies of `src/frontend/src/pages/Scans.tsx`, the websocket
channel and session-merge logic of
`src/frontend/src/hooks/useScanWebSocket.ts`, and the application-page
gating of `src/unnamed/part_001`.  Numbers are modelled as `Int`
(JavaScript numbers restricted to the integer values the code computes),
JavaScript `null`/`undefined`/missing as `Option.none`, and `Math.floor`
of an exact quotient as `Int.fdiv`.
-/

namespace ScanSync

/-- The scan status enum (`Scans.tsx`, `status` field of the `Scan`
interface): `pending | queued | running | completed | failed | cancelled`. -/
inductive ScanStatus where
  | pending
  | queued
  | running
  | completed
  | failed
  | cancelled
deriving DecidableEq

/-- JavaScript truthiness of an optional number: `undefined`/`null` and `0`
are falsy, every other integer is truthy. -/
def truthyInt : Option Int → Bool
  | none => false
  | some n => n != 0

/-- The `Scan` record of the list view (`Scans.tsx` lines 19-40), restricted
to the fields the policies read.  `started_at` is the parsed epoch
timestamp in milliseconds (`none` when the wire field is absent or empty). -/
structure Scan where
  id : String
  application_id : String
  application_name : String
  status : ScanStatus
  started_at : Option Int
  pages_scanned : Int
  total_pages : Option Int
  current_url : Option String
  progress_percentage : Int
  findings_count : Int
  overall_score : Option Int
  duration_seconds : Option Int
deriving DecidableEq

/-- `calculateElapsed` (`Scans.tsx` lines 69-74): `0` when `started_at` is
missing, otherwise `Math.floor((now - start) / 1000)`. -/
def calculateElapsed (startedAt : Option Int) (now : Int) : Int :=
  match startedAt with
  | none => 0
  | some start => Int.fdiv (now - start) 1000

/-- `estimateRemaining` (`Scans.tsx` lines 76-82): `null` when `started_at`
is falsy, `pages_scanned === 0`, or `total_pages` is falsy; otherwise
`Math.floor((elapsed / pages_scanned) * (total_pages - pages_scanned))`,
with no clamping of the remaining-page count.  `now` stands for
`Date.now()` read inside `calculateElapsed`. -/
def estimateRemaining (sc : Scan) (now : Int) : Option Int :=
  if sc.started_at.isNone || sc.pages_scanned == 0 || !(truthyInt sc.total_pages) then
    none
  else
    let elapsed := calculateElapsed sc.started_at now
    let remainingPages := sc.total_pages.getD 0 - sc.pages_scanned
    some (Int.fdiv (elapsed * remainingPages) sc.pages_scanned)

/-- `isRunning` (`Scans.tsx` line 675):
`['pending', 'queued', 'running'].includes(scan.status)`.  Gates the
cancel button (line 789). -/
def isRunning (st : ScanStatus) : Bool :=
  st == .pending || st == .queued || st == .running

/-- The delete-button guard (`Scans.tsx` line 799):
`['failed', 'cancelled', 'completed'].includes(scan.status)`. -/
def showDelete (st : ScanStatus) : Bool :=
  st == .failed || st == .cancelled || st == .completed

/-- The displayed progress percent of a list row (`Scans.tsx` lines
678-681): `100` when completed; `min(floor(pages_scanned / total_pages
* 100), 99)` when running with a truthy `total_pages`; otherwise
`progress_percentage || 0`. -/
def displayedProgress (sc : Scan) : Int :=
  if sc.status == .completed then 100
  else if sc.status == .running && truthyInt sc.total_pages then
    min (Int.fdiv (sc.pages_scanned * 100) (sc.total_pages.getD 0)) 99
  else if sc.progress_percentage == 0 then 0 else sc.progress_percentage

/-- `refetchInterval` of the scans list query (`Scans.tsx` lines 274-279):
poll every `2000` ms iff some item of the last fetched list has status
`running`, `pending` or `queued`; otherwise `false` (no interval). -/
def refetchInterval (items : List Scan) : Option Int :=
  if items.any (fun sc =>
      sc.status == .running || sc.status == .pending || sc.status == .queued) then
    some 2000
  else
    none

/-- Modelled from the spec: the backend "list scans" endpoint's status
filter is not under `src/` (only the client call
`scansApi.list({ status: 'running' })` in `src/unnamed/part_001` is); per
spec §6 the list query supports a status filter, returning the scans whose
status equals the requested one. -/
def listScansWithStatus (allScans : List Scan) (st : ScanStatus) : List Scan :=
  allScans.filter (fun sc => sc.status == st)

/-- `appsWithRunningScans` (`src/unnamed/part_001` lines 104-113): the set
of `application_id`s of the items returned by
`scansApi.list({ status: 'running' })`. -/
def appsWithRunningScans (allScans : List Scan) : List String :=
  (listScansWithStatus allScans .running).map (fun sc => sc.application_id)

/-- The edit/delete `disabled` predicate of the applications page
(`src/unnamed/part_001` lines 388 and 418):
`appsWithRunningScans.has(app.id)`. -/
def editDisabled (allScans : List Scan) (appId : String) : Bool :=
  (appsWithRunningScans allScans).contains appId

/-- An inbound `progress` message as it arrives on the wire
(`useScanWebSocket.ts`, fields read in lines 103-119).  Fields the handler
passes through `|| 0` are optional integers (`none` = absent, `null` or
`undefined`); fields stored verbatim keep their optionality. -/
structure WireProgress where
  scan_id : String
  status : ScanStatus
  percent : Int
  pages_scanned : Int
  total_pages : Option Int
  current_url : Option String
  message : Option String
  findings_count : Int
  critical_count : Option Int
  high_count : Option Int
  medium_count : Option Int
  low_count : Option Int
  elapsed_seconds : Option Int
  estimated_remaining_seconds : Option Int
  timestamp : Option String
deriving DecidableEq

/-- JavaScript `v || 0` on an optional integer: `undefined`/`null` become
`0`; a present value is kept (for `0` the `||` also yields `0`, the same
integer). -/
def orZero : Option Int → Int
  | none => 0
  | some n => n

/-- The stored `ScanProgressData` snapshot (`useScanWebSocket.ts` lines
5-21): the normalized counters are plain integers, the verbatim fields
keep their wire optionality. -/
structure ScanProgressData where
  scan_id : String
  status : ScanStatus
  percent : Int
  pages_scanned : Int
  total_pages : Int
  current_url : Option String
  message : Option String
  findings_count : Int
  critical_count : Int
  high_count : Int
  medium_count : Int
  low_count : Int
  elapsed_seconds : Int
  estimated_remaining_seconds : Option Int
  timestamp : Option String
deriving DecidableEq

/-- The `progressData` construction of the `progress` case
(`useScanWebSocket.ts` lines 103-119): `total_pages`, the four severity
counters and `elapsed_seconds` go through `|| 0`; every other field is
copied exactly as received. -/
def mkProgressData (d : WireProgress) : ScanProgressData :=
  { scan_id := d.scan_id
    status := d.status
    percent := d.percent
    pages_scanned := d.pages_scanned
    total_pages := orZero d.total_pages
    current_url := d.current_url
    message := d.message
    findings_count := d.findings_count
    critical_count := orZero d.critical_count
    high_count := orZero d.high_count
    medium_count := orZero d.medium_count
    low_count := orZero d.low_count
    elapsed_seconds := orZero d.elapsed_seconds
    estimated_remaining_seconds := d.estimated_remaining_seconds
    timestamp := d.timestamp }

/-- A live finding (`useScanWebSocket.ts` lines 23-32, built in lines
125-134). -/
structure ScanFinding where
  id : String
  title : String
  severity : String
  status : String
  dpdp_section : String
  description : String
  remediation : String
  url : String
deriving DecidableEq

/-- The terminal summary of a `completed` message (`useScanWebSocket.ts`
lines 34-46). -/
structure ScanCompletedData where
  scan_id : String
  status : ScanStatus
  pages_scanned : Int
  findings_count : Int
  overall_score : Int
  critical : Int
  high : Int
  medium : Int
  low : Int
deriving DecidableEq

/-- Inbound channel messages, discriminated by the wire `type` field
(`useScanWebSocket.ts` lines 97-154). -/
inductive WsMessage where
  | connected
  | progress (d : WireProgress)
  | finding (f : ScanFinding)
  | completed (d : ScanCompletedData)
  | error (e : String)
  | pong
  | unknown (t : String)
deriving DecidableEq

/-- The mutable state of one `useScanWebSocket` hook instance:
the React state (`isConnected`, `progress`, `findings`, `error`) plus the
refs — `wsConn` is `true` while `wsRef` holds a socket that has not yet
been closed, `pingArmed`/`reconnectArmed` track the pending keep-alive
interval and reconnection timeout, and `closePending` records that
`close()` was called on a live socket so its `onclose` event is still
queued for delivery. -/
structure ChannelState where
  isConnected : Bool
  progress : Option ScanProgressData
  findings : List ScanFinding
  error : Option String
  wsConn : Bool
  pingArmed : Bool
  reconnectArmed : Bool
  closePending : Bool
deriving DecidableEq

/-- The hook's initial state (`useScanWebSocket.ts` lines 58-64). -/
def initState : ChannelState :=
  { isConnected := false, progress := none, findings := [], error := none
    wsConn := false, pingArmed := false, reconnectArmed := false
    closePending := false }

/-- The `ws.onmessage` dispatch (`useScanWebSocket.ts` lines 93-158):
`progress` replaces the snapshot wholesale, `finding` prepends
unconditionally (`[finding, ...prev]`), `error` sets the error string,
`connected`/`completed`/`pong`/unknown types leave the state unchanged
(`completed` only fires a callback). -/
def handleMessage (s : ChannelState) (m : WsMessage) : ChannelState :=
  match m with
  | .connected => s
  | .progress d => { s with progress := some (mkProgressData d) }
  | .finding f => { s with findings := f :: s.findings }
  | .completed _ => s
  | .error e => { s with error := some e }
  | .pong => s
  | .unknown _ => s

/-- `connect` (`useScanWebSocket.ts` lines 70-183): if a live socket is
held it is closed (queueing its close event), then a fresh socket is
created and stored.  `isConnected` only changes later, in `onopen`. -/
def connect (s : ChannelState) : ChannelState :=
  { s with closePending := s.closePending || s.wsConn, wsConn := true }

/-- The events the single-threaded loop can deliver to the hook:
`wsOpen` = `ws.onopen`, `wsMessage` = `ws.onmessage`, `wsClose` =
`ws.onclose` (either the queued event of an intentionally closed socket or
an unexpected close of the live one), `reconnectFire` = the 3-second
reconnection timeout firing, `disconnect` = the explicit `disconnect()`
callback. -/
inductive ChannelEvent where
  | wsOpen
  | wsMessage (m : WsMessage)
  | wsClose
  | reconnectFire
  | disconnect
deriving DecidableEq

/-- One step of the hook's event loop.  `scanId` is the hook argument
captured by the closures (`useScanWebSocket.ts` line 57): the reconnection
timeout callback re-runs `connect` only when it is non-null (lines
170-174).  `ws.onopen` (lines 80-91) sets `isConnected`, clears the error
and arms the keep-alive interval; `ws.onclose` (lines 160-175) clears
`isConnected`, cancels the keep-alive interval and always arms a new
3-second reconnection timeout; `disconnect` (lines 185-197) cancels both
timers, closes and drops the held socket and clears `isConnected`. -/
def step (scanId : Option String) (s : ChannelState) (e : ChannelEvent) : ChannelState :=
  match e with
  | .wsOpen => { s with isConnected := true, error := none, pingArmed := true }
  | .wsMessage m => handleMessage s m
  | .wsClose =>
      if s.closePending then
        { s with closePending := false, isConnected := false
                 pingArmed := false, reconnectArmed := true }
      else if s.wsConn then
        { s with wsConn := false, isConnected := false
                 pingArmed := false, reconnectArmed := true }
      else s
  | .reconnectFire =>
      if s.reconnectArmed then
        let s1 := { s with reconnectArmed := false }
        if scanId.isSome then connect s1 else s1
      else s
  | .disconnect =>
      { s with reconnectArmed := false, pingArmed := false
               closePending := s.closePending || s.wsConn, wsConn := false
               isConnected := false }

/-- Run a sequence of events in arrival order. -/
def runTrace (scanId : Option String) (s : ChannelState) (es : List ChannelEvent) : ChannelState :=
  es.foldl (step scanId) s

/-- A steady connected state: socket open, keep-alive armed, no pending
timers or close events. -/
def connectedState : ChannelState :=
  { isConnected := true, progress := none, findings := [], error := none
    wsConn := true, pingArmed := true, reconnectArmed := false
    closePending := false }

/-- A concrete scan used for evaluating the estimator and the progress
display: running, started at epoch 0, 10 of 100 pages scanned. -/
def exampleScan : Scan :=
  { id := "sc-1", application_id := "app-1", application_name := "app"
    status := .running, started_at := some 0, pages_scanned := 10
    total_pages := some 100, current_url := none, progress_percentage := 0
    findings_count := 0, overall_score := none, duration_seconds := none }

/-- A scan whose `pages_scanned` exceeds its `total_pages`. -/
def overscannedScan : Scan :=
  { id := "sc-2", application_id := "app-1", application_name := "app"
    status := .running, started_at := some 0, pages_scanned := 10
    total_pages := some 5, current_url := none, progress_percentage := 0
    findings_count := 0, overall_score := none, duration_seconds := none }

/-- A running scan with unknown `total_pages` and a server-supplied
`progress_percentage` of 100. -/
def runningUnknownTotal : Scan :=
  { id := "sc-3", application_id := "app-1", application_name := "app"
    status := .running, started_at := some 0, pages_scanned := 10
    total_pages := none, current_url := none, progress_percentage := 100
    findings_count := 0, overall_score := none, duration_seconds := none }

/-- A scan with status `pending` against application `app-1`. -/
def pendingOnlyScan : Scan :=
  { id := "sc-4", application_id := "app-1", application_name := "app"
    status := .pending, started_at := none, pages_scanned := 0
    total_pages := none, current_url := none, progress_percentage := 0
    findings_count := 0, overall_score := none, duration_seconds := none }

/-- A concrete finding. -/
def dupFinding : ScanFinding :=
  { id := "f-1", title := "t", severity := "high", status := "open"
    dpdp_section := "5", description := "d", remediation := "r", url := "u" }

/-- A wire `progress` message carrying the given status. -/
def wireProgressWith (st : ScanStatus) : WireProgress :=
  { scan_id := "scan-1", status := st, percent := 0, pages_scanned := 0
    total_pages := none, current_url := none, message := none
    findings_count := 0, critical_count := none, high_count := none
    medium_count := none, low_count := none, elapsed_seconds := none
    estimated_remaining_seconds := none, timestamp := none }

/-- Claim C1, counterexample: two `finding` messages with the same id,
processed from the initial state, leave TWO entries with that id in the
findings sequence, not one — the handler prepends unconditionally. -/
theorem finding_duplicate_cex :
    (runTrace none initState
      [.wsMessage (.finding dupFinding), .wsMessage (.finding dupFinding)]).findings
      = [dupFinding, dupFinding]
    ∧ ((runTrace none initState
      [.wsMessage (.finding dupFinding), .wsMessage (.finding dupFinding)]).findings.countP
        (fun g => g.id == "f-1")) = 2 :=
  ⟨rfl, rfl⟩

/-- Claim C1, amended: a `finding` message always prepends its finding to
the findings sequence with no id-deduplication, so receiving two `finding`
messages with the same id adds two entries with that id. -/
theorem finding_message_always_prepends (s : ChannelState) (f : ScanFinding) :
    (handleMessage s (.finding f)).findings = f :: s.findings
    ∧ (handleMessage (handleMessage s (.finding f)) (.finding f)).findings.countP
        (fun g => g.id == f.id)
      = s.findings.countP (fun g => g.id == f.id) + 2 := by
  refine ⟨rfl, ?_⟩
  simp [handleMessage, List.countP_cons]

/-- Claim C2, counterexample: a `progress` message with status `completed`
followed by one with status `running` leaves the reported status at
`running`, an active status — terminal is not sticky under the wholesale
replacement done by the handler. -/
theorem terminal_not_sticky_cex :
    ((runTrace none initState
        [.wsMessage (.progress (wireProgressWith .completed))]).progress.map
      (fun p => p.status)) = some .completed
    ∧ ((runTrace none initState
        [.wsMessage (.progress (wireProgressWith .completed)),
         .wsMessage (.progress (wireProgressWith .running))]).progress.map
      (fun p => p.status)) = some .running
    ∧ isRunning .running = true :=
  ⟨rfl, rfl, rfl⟩

/-- Claim C2, amended: every `progress` message replaces the held snapshot
wholesale, so the reported status is always the status carried by the
latest `progress` message, regardless of any terminal status stored
before. -/
theorem progress_replaces_snapshot (s : ChannelState) (d : WireProgress) :
    (handleMessage s (.progress d)).progress = some (mkProgressData d)
    ∧ (handleMessage s (.progress d)).progress.map (fun p => p.status)
        = some d.status :=
  ⟨rfl, rfl⟩

/-- Claim C3, counterexample: with 10 of 5 pages scanned after 60 elapsed
seconds the estimator returns `-30`: the remaining-page count is not
clamped at 0 and the result is negative, unlike the claimed
`floor(timePerPage * max(totalPages - pagesScanned, 0))`. -/
theorem estimateRemaining_negative_cex :
    estimateRemaining overscannedScan 60000 = some (-30)
    ∧ ((-30 : Int) < 0)
    ∧ estimateRemaining overscannedScan 60000
        ≠ some (Int.fdiv
            (calculateElapsed overscannedScan.started_at 60000 *
              max (overscannedScan.total_pages.getD 0 - overscannedScan.pages_scanned) 0)
            overscannedScan.pages_scanned) := by
  decide

/-- Claim C3, amended: `estimateRemaining` returns `null` when
`started_at` is missing, `pages_scanned = 0` or `total_pages` is falsy;
otherwise it returns `floor((elapsed / pagesScanned) * (totalPages -
pagesScanned))` with no clamping, which is negative when `pagesScanned >
totalPages`; at elapsed 60s, 10 of 100 pages, it returns 540. -/
theorem estimateRemaining_spec (sc : Scan) (now : Int) :
    ((sc.started_at.isNone || sc.pages_scanned == 0 || !(truthyInt sc.total_pages)) = true →
      estimateRemaining sc now = none)
    ∧ (∀ t : Int, sc.started_at ≠ none → sc.pages_scanned ≠ 0 →
        sc.total_pages = some t → t ≠ 0 →
        estimateRemaining sc now
          = some (Int.fdiv
              (calculateElapsed sc.started_at now * (t - sc.pages_scanned))
              sc.pages_scanned))
    ∧ estimateRemaining exampleScan 60000 = some 540 := by
  refine ⟨fun h => by simp [estimateRemaining, h], fun t h1 h2 h3 h4 => ?_, by decide⟩
  obtain ⟨a, ha⟩ := Option.ne_none_iff_exists'.mp h1
  simp [estimateRemaining, ha, h3, truthyInt, h2, h4]

/-- Claim C4, counterexample: a running scan with unknown `total_pages`
falls back to the server-supplied `progress_percentage`, so it can display
100% while still running. -/
theorem running_displays_100_cex :
    runningUnknownTotal.status = .running
    ∧ displayedProgress runningUnknownTotal = 100 := by
  decide

/-- Claim C4, amended: the displayed percent is 100 when status is
`completed`, and while running with a known nonzero `total_pages` it is
`min(floor(pagesScanned / totalPages * 100), 99)`, hence at most 99; a
running scan with unknown `total_pages` instead shows the stored
`progress_percentage`, which may be 100. -/
theorem displayedProgress_spec (sc : Scan) :
    (sc.status = .completed → displayedProgress sc = 100)
    ∧ (∀ t : Int, sc.status = .running → sc.total_pages = some t → t ≠ 0 →
        displayedProgress sc = min (Int.fdiv (sc.pages_scanned * 100) t) 99
        ∧ displayedProgress sc ≤ 99) := by
  constructor
  · intro h
    simp [displayedProgress, h, beq_iff_eq]
  · intro t h1 h2 h3
    have hval : displayedProgress sc = min (Int.fdiv (sc.pages_scanned * 100) t) 99 := by
      simp [displayedProgress, h1, h2, truthyInt, h3, beq_iff_eq]
    exact ⟨hval, hval ▸ min_le_right _ _⟩

/-- Witness for the amended C4 theorem at `exampleScan` (running, 10 of
100 pages). -/
theorem displayedProgress_spec_witness :
    displayedProgress exampleScan
      = min (Int.fdiv (exampleScan.pages_scanned * 100) 100) 99
    ∧ displayedProgress exampleScan ≤ 99 :=
  (displayedProgress_spec exampleScan).2 100 rfl rfl (by decide)

/-- Witness for the amended C3 theorem at `exampleScan` (started at 0,
now = 60000 ms, 10 of 100 pages): the estimator returns 540. -/
theorem estimateRemaining_spec_witness :
    estimateRemaining exampleScan 60000 = some 540 :=
  ((estimateRemaining_spec exampleScan 60000).2.1 100
    (by decide) (by decide) rfl (by decide)).trans (by decide)

/-- Claim C5, counterexample: from a connected state with `scanId` set,
the trace `disconnect` then the close event of the intentionally closed
socket then the reconnection timeout re-opens the channel: `disconnect`
does cancel both timers, but the close event it triggers arms a new
reconnection timer, which reconnects. -/
theorem disconnect_reopens_cex :
    ((runTrace (some "scan-1") connectedState [.disconnect]).reconnectArmed = false)
    ∧ ((runTrace (some "scan-1") connectedState [.disconnect]).pingArmed = false)
    ∧ ((runTrace (some "scan-1") connectedState [.disconnect, .wsClose]).reconnectArmed = true)
    ∧ ((runTrace (some "scan-1") connectedState
        [.disconnect, .wsClose, .reconnectFire]).wsConn = true) := by
  decide

/-- Claim C5, amended: an explicit `disconnect()` cancels any pending
reconnection and keep-alive timers before releasing the connection, but
the close event triggered by closing the socket arms a fresh 3-second
reconnection timer, and when it fires with `scanId` still set the channel
is re-opened: an intentionally closed channel is reconnected. -/
theorem disconnect_clears_timers_but_close_rearms (id0 : String) (s : ChannelState)
    (h : s.wsConn = true) :
    ((step (some id0) s .disconnect).reconnectArmed = false)
    ∧ ((step (some id0) s .disconnect).pingArmed = false)
    ∧ ((step (some id0) s .disconnect).wsConn = false)
    ∧ ((step (some id0) s .disconnect).closePending = true)
    ∧ ((step (some id0) (step (some id0) s .disconnect) .wsClose).reconnectArmed = true)
    ∧ ((runTrace (some id0) s [.disconnect, .wsClose, .reconnectFire]).wsConn = true) := by
  simp [step, runTrace, connect, h]

/-- Witness for the amended C5 theorem at the connected steady state. -/
theorem disconnect_clears_timers_but_close_rearms_witness :
    connectedState.wsConn = true
    ∧ ((runTrace (some "scan-1") connectedState
        [.disconnect, .wsClose, .reconnectFire]).wsConn = true) :=
  ⟨rfl, (disconnect_clears_timers_but_close_rearms "scan-1" connectedState rfl).2.2.2.2.2⟩

/-- Claim C6: the list query refetches on a fixed 2000 ms interval iff
some item of the last fetched list has status `pending`, `queued` or
`running`, and the interval is disabled (`none`) iff no item does. -/
theorem refetchInterval_iff_active (items : List Scan) :
    (refetchInterval items = some 2000 ↔
      ∃ sc ∈ items, sc.status = .pending ∨ sc.status = .queued ∨ sc.status = .running)
    ∧ (refetchInterval items = none ↔
      ∀ sc ∈ items, ¬(sc.status = .pending ∨ sc.status = .queued ∨ sc.status = .running)) := by
  unfold refetchInterval
  split
  · rename_i h
    simp only [List.any_eq_true, Bool.or_eq_true, beq_iff_eq] at h
    obtain ⟨sc, hm, hs⟩ := h
    constructor
    · exact ⟨fun _ => ⟨sc, hm, by tauto⟩, fun _ => rfl⟩
    · constructor
      · intro hc
        exact absurd hc (by simp)
      · intro hall
        exact absurd (show sc.status = ScanStatus.pending ∨ sc.status = ScanStatus.queued
            ∨ sc.status = ScanStatus.running by tauto) (hall sc hm)
  · rename_i h
    simp only [List.any_eq_true, Bool.or_eq_true, beq_iff_eq] at h
    constructor
    · constructor
      · intro hc
        exact absurd hc (by simp)
      · rintro ⟨sc, hm, hs⟩
        exact absurd ⟨sc, hm, by tauto⟩ h
    · exact ⟨fun _ sc hm hs => absurd ⟨sc, hm, by tauto⟩ h, fun _ => rfl⟩

/-- Claim C7: the cancel action is offered iff status is `pending`,
`queued` or `running`; the delete action iff status is `completed`,
`failed` or `cancelled`; the two sets are disjoint and together cover the
whole status enum. -/
theorem cancel_delete_partition (st : ScanStatus) :
    (isRunning st = true ↔ (st = .pending ∨ st = .queued ∨ st = .running))
    ∧ (showDelete st = true ↔ (st = .completed ∨ st = .failed ∨ st = .cancelled))
    ∧ ¬(isRunning st = true ∧ showDelete st = true)
    ∧ (isRunning st = true ∨ showDelete st = true) := by
  cases st <;> decide

/-- Claim C8, counterexample: one scan with status `pending` (active in
the claim's sense) against `app-1` does not disable the application's
edit/delete buttons, because the gating set is built from a list filtered
to status `running` only. -/
theorem pending_scan_does_not_disable_cex :
    isRunning pendingOnlyScan.status = true
    ∧ editDisabled [pendingOnlyScan] "app-1" = false := by
  decide

/-- Claim C8, amended: the edit and delete affordances of a parent
application are disabled exactly when that application has at least one
scan with status `running` in the polled list; `pending` and `queued`
scans do not disable them. -/
theorem editDisabled_iff_running (allScans : List Scan) (appId : String) :
    editDisabled allScans appId = true ↔
      ∃ sc ∈ allScans, sc.application_id = appId ∧ sc.status = .running := by
  unfold editDisabled appsWithRunningScans listScansWithStatus
  simp only [List.contains_eq_any_beq, List.any_eq_true, List.mem_map,
    List.mem_filter, beq_iff_eq]
  constructor
  · rintro ⟨x, ⟨sc, ⟨hm, hr⟩, hx⟩, he⟩
    exact ⟨sc, hm, by simp [hx, he], hr⟩
  · rintro ⟨sc, hm, ha, hr⟩
    exact ⟨sc.application_id, ⟨sc, ⟨hm, hr⟩, rfl⟩, ha.symm⟩

/-- Claim C9: an `error`-type message changes only the session's error
string; the progress snapshot, the findings sequence, the connection flag,
the held socket and both timers are all left unchanged. -/
theorem error_message_frame (scanId : Option String) (s : ChannelState) (e : String) :
    (step scanId s (.wsMessage (.error e))).error = some e
    ∧ (step scanId s (.wsMessage (.error e))).progress = s.progress
    ∧ (step scanId s (.wsMessage (.error e))).findings = s.findings
    ∧ (step scanId s (.wsMessage (.error e))).isConnected = s.isConnected
    ∧ (step scanId s (.wsMessage (.error e))).wsConn = s.wsConn
    ∧ (step scanId s (.wsMessage (.error e))).pingArmed = s.pingArmed
    ∧ (step scanId s (.wsMessage (.error e))).reconnectArmed = s.reconnectArmed
    ∧ (step scanId s (.wsMessage (.error e))).closePending = s.closePending :=
  ⟨rfl, rfl, rfl, rfl, rfl, rfl, rfl, rfl⟩

/-- Claim C10: a `progress` message stores a snapshot whose `total_pages`,
severity counters and `elapsed_seconds` are the wire values normalized by
`|| 0` (missing, null or zero becomes the integer 0), while
`estimated_remaining_seconds`, `current_url`, `message` and `timestamp`
(and the remaining fields) are stored exactly as received. -/
theorem progress_field_normalization (scanId : Option String) (s : ChannelState)
    (d : WireProgress) :
    (step scanId s (.wsMessage (.progress d))).progress = some (mkProgressData d)
    ∧ (mkProgressData d).total_pages = orZero d.total_pages
    ∧ (mkProgressData d).critical_count = orZero d.critical_count
    ∧ (mkProgressData d).high_count = orZero d.high_count
    ∧ (mkProgressData d).medium_count = orZero d.medium_count
    ∧ (mkProgressData d).low_count = orZero d.low_count
    ∧ (mkProgressData d).elapsed_seconds = orZero d.elapsed_seconds
    ∧ orZero none = 0
    ∧ (∀ n : Int, orZero (some n) = n)
    ∧ (mkProgressData d).estimated_remaining_seconds = d.estimated_remaining_seconds
    ∧ (mkProgressData d).current_url = d.current_url
    ∧ (mkProgressData d).message = d.message
    ∧ (mkProgressData d).timestamp = d.timestamp
    ∧ (mkProgressData d).scan_id = d.scan_id
    ∧ (mkProgressData d).status = d.status
    ∧ (mkProgressData d).percent = d.percent
    ∧ (mkProgressData d).pages_scanned = d.pages_scanned
    ∧ (mkProgressData d).findings_count = d.findings_count :=
  ⟨rfl, rfl, rfl, rfl, rfl, rfl, rfl, rfl, fun _ => rfl, rfl, rfl, rfl, rfl, rfl,
    rfl, rfl, rfl, rfl⟩

end ScanSync
